import Mathlib

/-! # The generated Rcpp bindings of PatientLevelPrediction

A shallow embedding of `src/RcppExports.cpp`, the translation unit written by
`Rcpp::compileAttributes`.  It exports two entry points,
`PatientLevelPrediction_aucWithCi` and `PatientLevelPrediction_auc`, each of which

* opens the exception bracket `BEGIN_RCPP` ... `END_RCPP`,
* declares `Rcpp::RObject __result` and `Rcpp::RNGScope __rngScope`,
* binds both host arguments through `Rcpp::traits::input_parameter`,
* calls the externally declared routine and wraps what it returns.

The routines `auc` and `aucWithCi` are only declared in this file, and the Rcpp / R
runtime (`Rcpp::as`, `Rcpp::wrap`, `RNGScope`, the exception forwarding of `END_RCPP`)
is a library.  Both are parameters of the embedding: every theorem below holds for
all routines and all runtimes.

Conventions of the embedding
* C++ exceptions are the `Except.error` results of the fallible steps (argument
  conversion and the routine); scope entry, scope exit and `Rcpp::wrap` are total.
* The host state (in particular the random-number-generator state) is an explicit
  value of type `W` threaded through the call.
* A ghost event trace records what an invocation does, in order.
-/

namespace PatientLevelPrediction

/-! ## Data carried across the boundary -/

/-- C++ `double`, carried as its IEEE-754 binary64 bit pattern.  The wrappers only
move such values; they never compute with them. -/
structure Double where
  bits : Fin (2 ^ 64)
  deriving DecidableEq

/-- C++ `int` (32 bits), carried as its bit pattern. -/
structure CInt where
  bits : Fin (2 ^ 32)
  deriving DecidableEq

/-- Observable steps of one invocation of an exported wrapper. -/
inductive Event where
  /-- constructor of `Rcpp::RNGScope __rngScope` -/
  | enterScope
  /-- destructor of `__rngScope` (normal return or stack unwinding) -/
  | exitScope
  /-- conversion of `propensityScoresSEXP` to `std::vector<double>` is attempted -/
  | convertScores
  /-- conversion of `treatmentSEXP` to `std::vector<int>` is attempted -/
  | convertTreatment
  /-- the body of the routine is entered with these two by-value arguments -/
  | call (propensityScores : List Double) (treatment : List CInt)
  /-- `Rcpp::wrap` is applied to the value the routine returned -/
  | wrapResult
  /-- the handler of `END_RCPP` passes the caught exception to the host -/
  | forwardException
  deriving DecidableEq

/-- The host state visible to a call together with the ghost trace of events. -/
structure Machine (W : Type) where
  world : W
  trace : List Event

/-- Append one event to the trace. -/
def Machine.log {W : Type} (m : Machine W) (e : Event) : Machine W :=
  { m with trace := m.trace ++ [e] }

/-- How a call of an exported entry point ends for the host: with a value, or with the
condition that `END_RCPP` built from a caught exception. -/
inductive Outcome (SEXP Cond : Type) where
  | value (v : SEXP)
  | condition (c : Cond)
  deriving DecidableEq

/-- The library operations used by the generated code, as parameters.
`SEXP` is the type of host values, `Exn` of C++ exceptions, `Cond` of host conditions
and `W` of host states. -/
structure Runtime (SEXP Exn Cond W : Type) where
  /-- what `Rcpp::as< std::vector<double> >` does -/
  asDoubleVector : SEXP → Except Exn (List Double)
  /-- what `Rcpp::as< std::vector<int> >` does -/
  asIntVector : SEXP → Except Exn (List CInt)
  /-- what `Rcpp::wrap` does on a `double` -/
  wrapDouble : Double → SEXP
  /-- what `Rcpp::wrap` does on a `std::vector<double>` -/
  wrapDoubleVector : List Double → SEXP
  /-- effect on the host state of constructing an `RNGScope` -/
  getRNGstate : W → W
  /-- effect on the host state of destroying an `RNGScope` -/
  putRNGstate : W → W
  /-- the exception-to-condition translation of `END_RCPP` -/
  forwardException : Exn → Cond

/-- An externally declared routine with the C++ signature
`R f(std::vector<double> propensityScores, std::vector<int> treatment)`:
it may read and change the host state and may throw. -/
abbrev Routine (Exn W R : Type) := List Double → List CInt → W → Except Exn R × W

/-- The order in which the two arguments of the routine call are converted.  With
`input_parameter< std::vector<T> >` the conversion runs either at the declaration
(scores, then treatment) or inside the call expression, where C++ leaves the order of
argument evaluation open; the embedding covers both orders. -/
inductive ArgOrder where
  | scoresFirst
  | treatmentFirst
  deriving DecidableEq

/-! ## The generated code -/

section Wrappers

variable {SEXP Exn Cond W R : Type}

/-- Constructor of `Rcpp::RNGScope __rngScope;`. -/
def RNGScope.enter (rt : Runtime SEXP Exn Cond W) (m : Machine W) : Machine W :=
  { world := rt.getRNGstate m.world, trace := m.trace ++ [Event.enterScope] }

/-- Destructor of `__rngScope`, run when the block is left, by `return` or by a throw. -/
def RNGScope.exit (rt : Runtime SEXP Exn Cond W) (m : Machine W) : Machine W :=
  { world := rt.putRNGstate m.world, trace := m.trace ++ [Event.exitScope] }

/-- The two `Rcpp::traits::input_parameter` bindings
`propensityScores(propensityScoresSEXP)` and `treatment(treatmentSEXP)`:
the first conversion that throws ends the evaluation, the other one is then not
attempted. -/
def inputParameters (rt : Runtime SEXP Exn Cond W) (o : ArgOrder)
    (propensityScoresSEXP treatmentSEXP : SEXP) (m : Machine W) :
    Except Exn (List Double × List CInt) × Machine W :=
  match o with
  | ArgOrder.scoresFirst =>
    let m1 := m.log Event.convertScores
    match rt.asDoubleVector propensityScoresSEXP with
    | Except.error e => (Except.error e, m1)
    | Except.ok propensityScores =>
      let m2 := m1.log Event.convertTreatment
      match rt.asIntVector treatmentSEXP with
      | Except.error e => (Except.error e, m2)
      | Except.ok treatment => (Except.ok (propensityScores, treatment), m2)
  | ArgOrder.treatmentFirst =>
    let m1 := m.log Event.convertTreatment
    match rt.asIntVector treatmentSEXP with
    | Except.error e => (Except.error e, m1)
    | Except.ok treatment =>
      let m2 := m1.log Event.convertScores
      match rt.asDoubleVector propensityScoresSEXP with
      | Except.error e => (Except.error e, m2)
      | Except.ok propensityScores => (Except.ok (propensityScores, treatment), m2)

/-- The statement `__result = Rcpp::wrap(routine(propensityScores, treatment));`
once both arguments are converted. -/
def callAndWrap (routine : Routine Exn W R) (wrap : R → SEXP)
    (propensityScores : List Double) (treatment : List CInt) (m : Machine W) :
    Except Exn SEXP × Machine W :=
  let r := routine propensityScores treatment m.world
  let m1 : Machine W :=
    { world := r.2, trace := m.trace ++ [Event.call propensityScores treatment] }
  match r.1 with
  | Except.error e => (Except.error e, m1)
  | Except.ok x => (Except.ok (wrap x), m1.log Event.wrapResult)

/-- The statements between `BEGIN_RCPP` and `END_RCPP`, that is, the `try` block:
the scope object is constructed, the arguments are bound, the routine is called and
its value wrapped, and `__rngScope` is destroyed on the way out (on `return __result;`
as well as when an exception unwinds the block). -/
def tryBlock (rt : Runtime SEXP Exn Cond W) (o : ArgOrder) (routine : Routine Exn W R)
    (wrap : R → SEXP) (propensityScoresSEXP treatmentSEXP : SEXP) (m : Machine W) :
    Except Exn SEXP × Machine W :=
  let m0 := RNGScope.enter rt m
  let args := inputParameters rt o propensityScoresSEXP treatmentSEXP m0
  let res : Except Exn SEXP × Machine W :=
    match args.1 with
    | Except.error e => (Except.error e, args.2)
    | Except.ok st => callAndWrap routine wrap st.1 st.2 args.2
  (res.1, RNGScope.exit rt res.2)

/-- One generated `RcppExport` function: `BEGIN_RCPP`, the block, `END_RCPP`.
A value returned by the block is the value of the call; an exception that leaves the
block is caught by `END_RCPP` and handed to the exception-to-condition translation. -/
def rcppExport (rt : Runtime SEXP Exn Cond W) (o : ArgOrder) (routine : Routine Exn W R)
    (wrap : R → SEXP) (propensityScoresSEXP treatmentSEXP : SEXP) (m : Machine W) :
    Outcome SEXP Cond × Machine W :=
  let r := tryBlock rt o routine wrap propensityScoresSEXP treatmentSEXP m
  match r.1 with
  | Except.ok v => (Outcome.value v, r.2)
  | Except.error e =>
    (Outcome.condition (rt.forwardException e), r.2.log Event.forwardException)

/-- Entry point `PatientLevelPrediction_aucWithCi(propensityScoresSEXP, treatmentSEXP)`
(lines 10-19 of `RcppExports.cpp`), over the declared routine
`std::vector<double> aucWithCi(std::vector<double>, std::vector<int>)`. -/
def PatientLevelPrediction_aucWithCi (rt : Runtime SEXP Exn Cond W) (o : ArgOrder)
    (aucWithCi : Routine Exn W (List Double))
    (propensityScoresSEXP treatmentSEXP : SEXP) (m : Machine W) :
    Outcome SEXP Cond × Machine W :=
  rcppExport rt o aucWithCi rt.wrapDoubleVector propensityScoresSEXP treatmentSEXP m

/-- Entry point `PatientLevelPrediction_auc(propensityScoresSEXP, treatmentSEXP)`
(lines 22-31 of `RcppExports.cpp`), over the declared routine
`double auc(std::vector<double>, std::vector<int>)`. -/
def PatientLevelPrediction_auc (rt : Runtime SEXP Exn Cond W) (o : ArgOrder)
    (auc : Routine Exn W Double)
    (propensityScoresSEXP treatmentSEXP : SEXP) (m : Machine W) :
    Outcome SEXP Cond × Machine W :=
  rcppExport rt o auc rt.wrapDouble propensityScoresSEXP treatmentSEXP m

end Wrappers

/-! ## Reading a trace -/

/-- Whether an event is an invocation of the routine. -/
def Event.isCall : Event → Bool
  | Event.call _ _ => true
  | _ => false

/-- The invocations of the routine recorded in a trace, in order. -/
def callsOf (tr : List Event) : List Event := tr.filter Event.isCall

/-- The conversion attempts made, in order, when both conversions succeed. -/
def conversionEvents : ArgOrder → List Event
  | ArgOrder.scoresFirst => [Event.convertScores, Event.convertTreatment]
  | ArgOrder.treatmentFirst => [Event.convertTreatment, Event.convertScores]

namespace Sample

/-- Host values of the test runtime. -/
inductive Value where
  | null
  | real (xs : List Double)
  | integer (xs : List CInt)
  | closure
  deriving DecidableEq

/-- Exceptions of the test runtime. -/
inductive Error where
  | notCompatible
  | lengthMismatch
  deriving DecidableEq

/-- Host conditions of the test runtime. -/
inductive Condition where
  | simpleError (e : Error)
  deriving DecidableEq

/-- The double with bit pattern `n`. -/
def dbl (n : Nat) : Double := ⟨⟨n % 2 ^ 64, Nat.mod_lt n (Nat.two_pow_pos 64)⟩⟩

/-- The int with bit pattern `n`. -/
def int (n : Nat) : CInt := ⟨⟨n % 2 ^ 32, Nat.mod_lt n (Nat.two_pow_pos 32)⟩⟩

/-- Test runtime: real vectors convert to doubles, integer vectors to ints, nothing
else converts; the host state is a counter that scope entry and exit leave alone. -/
def runtime : Runtime Value Error Condition Nat where
  asDoubleVector := fun v =>
    match v with
    | Value.real xs => Except.ok xs
    | _ => Except.error Error.notCompatible
  asIntVector := fun v =>
    match v with
    | Value.integer xs => Except.ok xs
    | _ => Except.error Error.notCompatible
  wrapDouble := fun d => Value.real [d]
  wrapDoubleVector := fun xs => Value.real xs
  getRNGstate := fun w => w
  putRNGstate := fun w => w
  forwardException := Condition.simpleError

/-- Test routine of type `auc`: throws on vectors of different lengths, otherwise
returns the first score (or zero) and advances the counter. -/
def auc : Routine Error Nat Double := fun s t w =>
  if s.length = t.length then (Except.ok (s.headD (dbl 0)), w + 1)
  else (Except.error Error.lengthMismatch, w)

/-- Test routine of type `aucWithCi`: throws on vectors of different lengths, otherwise
returns the scores themselves and advances the counter. -/
def aucWithCi : Routine Error Nat (List Double) := fun s t w =>
  if s.length = t.length then (Except.ok s, w + 1)
  else (Except.error Error.lengthMismatch, w)

/-- A fresh machine at counter `w`. -/
def start (w : Nat) : Machine Nat := { world := w, trace := [] }

end Sample

/-! ## Characterisation of a run -/

section Lemmas

variable {SEXP Exn Cond W R : Type}

/-- Normal return: both conversions succeed and the routine returns `x`. -/
theorem rcppExport_returns (rt : Runtime SEXP Exn Cond W) (o : ArgOrder)
    (routine : Routine Exn W R) (wrap : R → SEXP) (a b : SEXP) (m : Machine W)
    (s : List Double) (t : List CInt) (x : R)
    (hs : rt.asDoubleVector a = Except.ok s) (ht : rt.asIntVector b = Except.ok t)
    (hr : (routine s t (rt.getRNGstate m.world)).1 = Except.ok x) :
    rcppExport rt o routine wrap a b m
      = (Outcome.value (wrap x),
          { world := rt.putRNGstate (routine s t (rt.getRNGstate m.world)).2,
            trace := m.trace ++ Event.enterScope :: conversionEvents o
              ++ [Event.call s t, Event.wrapResult, Event.exitScope] }) := by
  cases o <;>
    simp [rcppExport, tryBlock, callAndWrap, inputParameters, RNGScope.enter, RNGScope.exit,
      Machine.log, conversionEvents, hs, ht, hr]

/-- The routine throws `e` after both conversions succeeded. -/
theorem rcppExport_routine_throws (rt : Runtime SEXP Exn Cond W) (o : ArgOrder)
    (routine : Routine Exn W R) (wrap : R → SEXP) (a b : SEXP) (m : Machine W)
    (s : List Double) (t : List CInt) (e : Exn)
    (hs : rt.asDoubleVector a = Except.ok s) (ht : rt.asIntVector b = Except.ok t)
    (hr : (routine s t (rt.getRNGstate m.world)).1 = Except.error e) :
    rcppExport rt o routine wrap a b m
      = (Outcome.condition (rt.forwardException e),
          { world := rt.putRNGstate (routine s t (rt.getRNGstate m.world)).2,
            trace := m.trace ++ Event.enterScope :: conversionEvents o
              ++ [Event.call s t, Event.exitScope, Event.forwardException] }) := by
  cases o <;>
    simp [rcppExport, tryBlock, callAndWrap, inputParameters, RNGScope.enter, RNGScope.exit,
      Machine.log, conversionEvents, hs, ht, hr]

/-- Scores are converted first and their conversion throws `e`. -/
theorem rcppExport_scores_throw_first (rt : Runtime SEXP Exn Cond W)
    (routine : Routine Exn W R) (wrap : R → SEXP) (a b : SEXP) (m : Machine W) (e : Exn)
    (hs : rt.asDoubleVector a = Except.error e) :
    rcppExport rt ArgOrder.scoresFirst routine wrap a b m
      = (Outcome.condition (rt.forwardException e),
          { world := rt.putRNGstate (rt.getRNGstate m.world),
            trace := m.trace ++ [Event.enterScope, Event.convertScores, Event.exitScope,
              Event.forwardException] }) := by
  simp [rcppExport, tryBlock, inputParameters, RNGScope.enter, RNGScope.exit, Machine.log, hs]

/-- Scores are converted first and succeed, then the treatment conversion throws `e`. -/
theorem rcppExport_treatment_throws_second (rt : Runtime SEXP Exn Cond W)
    (routine : Routine Exn W R) (wrap : R → SEXP) (a b : SEXP) (m : Machine W)
    (s : List Double) (e : Exn)
    (hs : rt.asDoubleVector a = Except.ok s) (ht : rt.asIntVector b = Except.error e) :
    rcppExport rt ArgOrder.scoresFirst routine wrap a b m
      = (Outcome.condition (rt.forwardException e),
          { world := rt.putRNGstate (rt.getRNGstate m.world),
            trace := m.trace ++ [Event.enterScope, Event.convertScores, Event.convertTreatment,
              Event.exitScope, Event.forwardException] }) := by
  simp [rcppExport, tryBlock, inputParameters, RNGScope.enter, RNGScope.exit, Machine.log,
    hs, ht]

/-- Treatment is converted first and its conversion throws `e`. -/
theorem rcppExport_treatment_throws_first (rt : Runtime SEXP Exn Cond W)
    (routine : Routine Exn W R) (wrap : R → SEXP) (a b : SEXP) (m : Machine W) (e : Exn)
    (ht : rt.asIntVector b = Except.error e) :
    rcppExport rt ArgOrder.treatmentFirst routine wrap a b m
      = (Outcome.condition (rt.forwardException e),
          { world := rt.putRNGstate (rt.getRNGstate m.world),
            trace := m.trace ++ [Event.enterScope, Event.convertTreatment, Event.exitScope,
              Event.forwardException] }) := by
  simp [rcppExport, tryBlock, inputParameters, RNGScope.enter, RNGScope.exit, Machine.log, ht]

/-- Treatment is converted first and succeeds, then the scores conversion throws `e`. -/
theorem rcppExport_scores_throw_second (rt : Runtime SEXP Exn Cond W)
    (routine : Routine Exn W R) (wrap : R → SEXP) (a b : SEXP) (m : Machine W)
    (t : List CInt) (e : Exn)
    (hs : rt.asDoubleVector a = Except.error e) (ht : rt.asIntVector b = Except.ok t) :
    rcppExport rt ArgOrder.treatmentFirst routine wrap a b m
      = (Outcome.condition (rt.forwardException e),
          { world := rt.putRNGstate (rt.getRNGstate m.world),
            trace := m.trace ++ [Event.enterScope, Event.convertTreatment, Event.convertScores,
              Event.exitScope, Event.forwardException] }) := by
  simp [rcppExport, tryBlock, inputParameters, RNGScope.enter, RNGScope.exit, Machine.log,
    hs, ht]

/-- Every run has one of three shapes: normal return, the routine throws, or a
conversion throws (and then only conversion attempts lie inside the scope). -/
theorem rcppExport_cases (rt : Runtime SEXP Exn Cond W) (o : ArgOrder)
    (routine : Routine Exn W R) (wrap : R → SEXP) (a b : SEXP) (m : Machine W) :
    (∃ s t x, rt.asDoubleVector a = Except.ok s ∧ rt.asIntVector b = Except.ok t
        ∧ (routine s t (rt.getRNGstate m.world)).1 = Except.ok x
        ∧ rcppExport rt o routine wrap a b m
          = (Outcome.value (wrap x),
              { world := rt.putRNGstate (routine s t (rt.getRNGstate m.world)).2,
                trace := m.trace ++ Event.enterScope :: conversionEvents o
                  ++ [Event.call s t, Event.wrapResult, Event.exitScope] }))
    ∨ (∃ s t e, rt.asDoubleVector a = Except.ok s ∧ rt.asIntVector b = Except.ok t
        ∧ (routine s t (rt.getRNGstate m.world)).1 = Except.error e
        ∧ rcppExport rt o routine wrap a b m
          = (Outcome.condition (rt.forwardException e),
              { world := rt.putRNGstate (routine s t (rt.getRNGstate m.world)).2,
                trace := m.trace ++ Event.enterScope :: conversionEvents o
                  ++ [Event.call s t, Event.exitScope, Event.forwardException] }))
    ∨ (∃ e evs, (rt.asDoubleVector a = Except.error e ∨ rt.asIntVector b = Except.error e)
        ∧ (∀ ev ∈ evs, ev = Event.convertScores ∨ ev = Event.convertTreatment)
        ∧ rcppExport rt o routine wrap a b m
          = (Outcome.condition (rt.forwardException e),
              { world := rt.putRNGstate (rt.getRNGstate m.world),
                trace := m.trace ++ Event.enterScope :: evs
                  ++ [Event.exitScope, Event.forwardException] })) := by
  rcases hs : rt.asDoubleVector a with e1 | s <;> rcases ht : rt.asIntVector b with e2 | t
  · right; right
    cases o
    · exact ⟨e1, [Event.convertScores], Or.inl rfl, by simp,
        by simpa using rcppExport_scores_throw_first rt routine wrap a b m e1 hs⟩
    · exact ⟨e2, [Event.convertTreatment], Or.inr rfl, by simp,
        by simpa using rcppExport_treatment_throws_first rt routine wrap a b m e2 ht⟩
  · right; right
    cases o
    · exact ⟨e1, [Event.convertScores], Or.inl rfl, by simp,
        by simpa using rcppExport_scores_throw_first rt routine wrap a b m e1 hs⟩
    · exact ⟨e1, [Event.convertTreatment, Event.convertScores], Or.inl rfl, by simp,
        by simpa using rcppExport_scores_throw_second rt routine wrap a b m t e1 hs ht⟩
  · right; right
    cases o
    · exact ⟨e2, [Event.convertScores, Event.convertTreatment], Or.inr rfl, by simp,
        by simpa using rcppExport_treatment_throws_second rt routine wrap a b m s e2 hs ht⟩
    · exact ⟨e2, [Event.convertTreatment], Or.inr rfl, by simp,
        by simpa using rcppExport_treatment_throws_first rt routine wrap a b m e2 ht⟩
  · rcases hr : (routine s t (rt.getRNGstate m.world)).1 with e | x
    · exact Or.inr (Or.inl ⟨s, t, e, rfl, rfl, hr,
        rcppExport_routine_throws rt o routine wrap a b m s t e hs ht hr⟩)
    · exact Or.inl ⟨s, t, x, rfl, rfl, hr,
        rcppExport_returns rt o routine wrap a b m s t x hs ht hr⟩

/-- Reading the invocations distributes over concatenation of traces. -/
theorem callsOf_append (xs ys : List Event) : callsOf (xs ++ ys) = callsOf xs ++ callsOf ys := by
  simp [callsOf]

/-- The invocations in the trace of a run that reaches the routine: those of the
history, then the one of this run. -/
theorem callsOf_run_with_call (o : ArgOrder) (pre rest : List Event)
    (s : List Double) (t : List CInt) (hrest : callsOf rest = []) :
    callsOf (pre ++ Event.enterScope :: conversionEvents o ++ Event.call s t :: rest)
      = callsOf pre ++ [Event.call s t] := by
  have h1 : callsOf (Event.enterScope :: conversionEvents o) = [] := by
    cases o <;> rfl
  have h2 : callsOf (Event.call s t :: rest) = [Event.call s t] := by
    show List.filter Event.isCall (Event.call s t :: rest) = [Event.call s t]
    rw [List.filter_cons_of_pos (by rfl)]
    exact congrArg _ hrest
  rw [callsOf_append, callsOf_append, h1, h2]
  simp

/-- The invocations in the trace of a run in which a conversion throws: those of the
history only. -/
theorem callsOf_run_without_call (pre evs rest : List Event)
    (hevs : ∀ ev ∈ evs, ev = Event.convertScores ∨ ev = Event.convertTreatment)
    (hrest : callsOf rest = []) :
    callsOf (pre ++ Event.enterScope :: evs ++ rest) = callsOf pre := by
  have h1 : callsOf (Event.enterScope :: evs) = [] := by
    simp only [callsOf, List.filter_eq_nil_iff]
    intro ev hev
    rcases List.mem_cons.mp hev with rfl | hev
    · simp [Event.isCall]
    · rcases hevs ev hev with rfl | rfl <;> simp [Event.isCall]
  rw [callsOf_append, callsOf_append, h1, hrest]
  simp

/-- Exactly when, and with which condition, a generated wrapper ends in an error. -/
theorem rcppExport_condition_iff (rt : Runtime SEXP Exn Cond W) (o : ArgOrder)
    (routine : Routine Exn W R) (wrap : R → SEXP) (a b : SEXP) (m : Machine W) (c : Cond) :
    (rcppExport rt o routine wrap a b m).1 = Outcome.condition c ↔
      ∃ e, c = rt.forwardException e ∧
        ((o = ArgOrder.scoresFirst ∧ rt.asDoubleVector a = Except.error e)
        ∨ (o = ArgOrder.scoresFirst ∧ (∃ s, rt.asDoubleVector a = Except.ok s)
            ∧ rt.asIntVector b = Except.error e)
        ∨ (o = ArgOrder.treatmentFirst ∧ rt.asIntVector b = Except.error e)
        ∨ (o = ArgOrder.treatmentFirst ∧ (∃ t, rt.asIntVector b = Except.ok t)
            ∧ rt.asDoubleVector a = Except.error e)
        ∨ (∃ s t, rt.asDoubleVector a = Except.ok s ∧ rt.asIntVector b = Except.ok t
            ∧ (routine s t (rt.getRNGstate m.world)).1 = Except.error e)) := by
  rcases hs : rt.asDoubleVector a with e1 | s <;> rcases ht : rt.asIntVector b with e2 | t
  · cases o
    · rw [rcppExport_scores_throw_first rt routine wrap a b m e1 hs]
      simp [eq_comm]
    · rw [rcppExport_treatment_throws_first rt routine wrap a b m e2 ht]
      simp [eq_comm]
  · cases o
    · rw [rcppExport_scores_throw_first rt routine wrap a b m e1 hs]
      simp [eq_comm]
    · rw [rcppExport_scores_throw_second rt routine wrap a b m t e1 hs ht]
      simp [eq_comm]
  · cases o
    · rw [rcppExport_treatment_throws_second rt routine wrap a b m s e2 hs ht]
      simp [eq_comm]
    · rw [rcppExport_treatment_throws_first rt routine wrap a b m e2 ht]
      simp [eq_comm]
  · rcases hr : (routine s t (rt.getRNGstate m.world)).1 with e | x
    · rw [rcppExport_routine_throws rt o routine wrap a b m s t e hs ht hr]
      simp [hr, eq_comm]
    · rw [rcppExport_returns rt o routine wrap a b m s t x hs ht hr]
      simp [hr]

/-- A generated wrapper ends in an error exactly when a conversion fails or the
routine throws. -/
theorem rcppExport_fails_iff (rt : Runtime SEXP Exn Cond W) (o : ArgOrder)
    (routine : Routine Exn W R) (wrap : R → SEXP) (a b : SEXP) (m : Machine W) :
    (∃ c, (rcppExport rt o routine wrap a b m).1 = Outcome.condition c) ↔
      ((∃ e, rt.asDoubleVector a = Except.error e) ∨ (∃ e, rt.asIntVector b = Except.error e)
        ∨ (∃ s t e, rt.asDoubleVector a = Except.ok s ∧ rt.asIntVector b = Except.ok t
            ∧ (routine s t (rt.getRNGstate m.world)).1 = Except.error e)) := by
  rcases rcppExport_cases rt o routine wrap a b m with
    ⟨s, t, x, hs, ht, hr, h⟩ | ⟨s, t, e, hs, ht, hr, h⟩ | ⟨e, evs, he, -, h⟩
  · rw [h]; simp [hs, ht, hr]
  · rw [h]; simp [hs, ht, hr]
  · rw [h]
    rcases he with he | he <;> simp [he]

/-- With both arguments converted, a run invokes the routine once, on the converted
vectors, and ends the way the routine does. -/
theorem rcppExport_forwards (rt : Runtime SEXP Exn Cond W) (o : ArgOrder)
    (routine : Routine Exn W R) (wrap : R → SEXP) (a b : SEXP) (m : Machine W)
    (s : List Double) (t : List CInt)
    (hs : rt.asDoubleVector a = Except.ok s) (ht : rt.asIntVector b = Except.ok t) :
    (∃ evs, (rcppExport rt o routine wrap a b m).2.trace = m.trace ++ evs
        ∧ callsOf evs = [Event.call s t])
    ∧ (∀ x, (routine s t (rt.getRNGstate m.world)).1 = Except.ok x →
        (rcppExport rt o routine wrap a b m).1 = Outcome.value (wrap x))
    ∧ (∀ e, (routine s t (rt.getRNGstate m.world)).1 = Except.error e →
        (rcppExport rt o routine wrap a b m).1 = Outcome.condition (rt.forwardException e))
    ∧ (rcppExport rt o routine wrap a b m).2.world
        = rt.putRNGstate (routine s t (rt.getRNGstate m.world)).2 := by
  rcases hr : (routine s t (rt.getRNGstate m.world)).1 with e | x
  · rw [rcppExport_routine_throws rt o routine wrap a b m s t e hs ht hr]
    refine ⟨⟨Event.enterScope :: conversionEvents o
      ++ [Event.call s t, Event.exitScope, Event.forwardException], by simp, ?_⟩,
      (fun x hx => by cases hx), (fun e0 he0 => by cases he0; rfl), rfl⟩
    simpa using callsOf_run_with_call o [] [Event.exitScope, Event.forwardException] s t rfl
  · rw [rcppExport_returns rt o routine wrap a b m s t x hs ht hr]
    refine ⟨⟨Event.enterScope :: conversionEvents o
      ++ [Event.call s t, Event.wrapResult, Event.exitScope], by simp, ?_⟩,
      (fun x0 hx0 => by cases hx0; rfl), (fun e he => by cases he), rfl⟩
    simpa using callsOf_run_with_call o [] [Event.wrapResult, Event.exitScope] s t rfl

/-- When a conversion fails, a run ends in the translation of a conversion error,
without invoking the routine or wrapping anything, and the host state has only seen
the scope entry and exit. -/
theorem rcppExport_conversion_failure (rt : Runtime SEXP Exn Cond W) (o : ArgOrder)
    (routine : Routine Exn W R) (wrap : R → SEXP) (a b : SEXP) (m : Machine W)
    (h : (∃ e, rt.asDoubleVector a = Except.error e)
      ∨ (∃ e, rt.asIntVector b = Except.error e)) :
    ∃ e, (rt.asDoubleVector a = Except.error e ∨ rt.asIntVector b = Except.error e)
      ∧ (rcppExport rt o routine wrap a b m).1 = Outcome.condition (rt.forwardException e)
      ∧ (rcppExport rt o routine wrap a b m).2.world = rt.putRNGstate (rt.getRNGstate m.world)
      ∧ ∃ evs, (rcppExport rt o routine wrap a b m).2.trace = m.trace ++ evs
          ∧ callsOf evs = [] ∧ Event.wrapResult ∉ evs := by
  rcases rcppExport_cases rt o routine wrap a b m with
    ⟨s, t, x, hs, ht, -, -⟩ | ⟨s, t, e1, hs, ht, -, -⟩ | ⟨e, evs, he, hevs, hrun⟩
  · rcases h with ⟨e, he⟩ | ⟨e, he⟩ <;> simp [hs, ht] at he
  · rcases h with ⟨e, he⟩ | ⟨e, he⟩ <;> simp [hs, ht] at he
  · refine ⟨e, he, by rw [hrun], by rw [hrun], Event.enterScope :: evs
      ++ [Event.exitScope, Event.forwardException], by rw [hrun]; simp, ?_, ?_⟩
    · simpa using callsOf_run_without_call [] evs
        [Event.exitScope, Event.forwardException] hevs rfl
    · intro hin
      simp at hin
      rcases hevs _ hin with h0 | h0 <;> cases h0

end Lemmas

/-! ## The entry points -/

section Claims

variable {SEXP Exn Cond W : Type}

/-- C1: when the first host argument converts to the doubles `s`, the second to the
ints `t`, and `auc` returns `d` on them (in the host state left by the scope entry),
`PatientLevelPrediction_auc` returns `wrap d` and nothing else: the routine was
invoked on `s` as `propensityScores` and on `t` as `treatment`, that is, on the
converted first and second argument, unchanged and in that order. -/
theorem auc_returns_wrapped_result (rt : Runtime SEXP Exn Cond W) (o : ArgOrder)
    (auc : Routine Exn W Double) (a b : SEXP) (m : Machine W)
    (s : List Double) (t : List CInt) (d : Double)
    (hs : rt.asDoubleVector a = Except.ok s) (ht : rt.asIntVector b = Except.ok t)
    (hr : (auc s t (rt.getRNGstate m.world)).1 = Except.ok d) :
    (PatientLevelPrediction_auc rt o auc a b m).1 = Outcome.value (rt.wrapDouble d)
    ∧ callsOf (PatientLevelPrediction_auc rt o auc a b m).2.trace
        = callsOf m.trace ++ [Event.call s t] := by
  unfold PatientLevelPrediction_auc
  rw [rcppExport_returns rt o auc rt.wrapDouble a b m s t d hs ht hr]
  refine ⟨rfl, ?_⟩
  exact callsOf_run_with_call o m.trace _ s t rfl

/-- Evaluation of C1 on the test runtime, in both conversion orders; the two host
arguments are of different kinds, so exchanging them would not convert. -/
theorem auc_returns_wrapped_result_witness :
    (Sample.runtime.asDoubleVector (Sample.Value.real [Sample.dbl 7, Sample.dbl 9])
        = Except.ok [Sample.dbl 7, Sample.dbl 9]
      ∧ Sample.runtime.asIntVector (Sample.Value.integer [Sample.int 1, Sample.int 0])
        = Except.ok [Sample.int 1, Sample.int 0])
    ∧ (PatientLevelPrediction_auc Sample.runtime ArgOrder.scoresFirst Sample.auc
        (Sample.Value.real [Sample.dbl 7, Sample.dbl 9])
        (Sample.Value.integer [Sample.int 1, Sample.int 0]) (Sample.start 5)).1
      = Outcome.value (Sample.Value.real [Sample.dbl 7])
    ∧ (PatientLevelPrediction_auc Sample.runtime ArgOrder.treatmentFirst Sample.auc
        (Sample.Value.real [Sample.dbl 7, Sample.dbl 9])
        (Sample.Value.integer [Sample.int 1, Sample.int 0]) (Sample.start 5)).1
      = Outcome.value (Sample.Value.real [Sample.dbl 7]) :=
  ⟨⟨rfl, rfl⟩,
    (auc_returns_wrapped_result Sample.runtime ArgOrder.scoresFirst Sample.auc
      (Sample.Value.real [Sample.dbl 7, Sample.dbl 9])
      (Sample.Value.integer [Sample.int 1, Sample.int 0]) (Sample.start 5)
      [Sample.dbl 7, Sample.dbl 9] [Sample.int 1, Sample.int 0] (Sample.dbl 7)
      rfl rfl rfl).1,
    (auc_returns_wrapped_result Sample.runtime ArgOrder.treatmentFirst Sample.auc
      (Sample.Value.real [Sample.dbl 7, Sample.dbl 9])
      (Sample.Value.integer [Sample.int 1, Sample.int 0]) (Sample.start 5)
      [Sample.dbl 7, Sample.dbl 9] [Sample.int 1, Sample.int 0] (Sample.dbl 7)
      rfl rfl rfl).1⟩

/-- C2: when the first host argument converts to the doubles `s`, the second to the
ints `t`, and `aucWithCi` returns the vector `v` on them,
`PatientLevelPrediction_aucWithCi` returns the wrapping of `v` itself (the list as
returned: same length, same elements, same order), and the routine was invoked on `s`
as `propensityScores` and `t` as `treatment`, unchanged. -/
theorem aucWithCi_returns_wrapped_result (rt : Runtime SEXP Exn Cond W) (o : ArgOrder)
    (aucWithCi : Routine Exn W (List Double)) (a b : SEXP) (m : Machine W)
    (s : List Double) (t : List CInt) (v : List Double)
    (hs : rt.asDoubleVector a = Except.ok s) (ht : rt.asIntVector b = Except.ok t)
    (hr : (aucWithCi s t (rt.getRNGstate m.world)).1 = Except.ok v) :
    (PatientLevelPrediction_aucWithCi rt o aucWithCi a b m).1
        = Outcome.value (rt.wrapDoubleVector v)
    ∧ callsOf (PatientLevelPrediction_aucWithCi rt o aucWithCi a b m).2.trace
        = callsOf m.trace ++ [Event.call s t]
    ∧ ∀ unwrap : SEXP → Option (List Double),
        (∀ xs, unwrap (rt.wrapDoubleVector xs) = some xs) →
        ∃ r, (PatientLevelPrediction_aucWithCi rt o aucWithCi a b m).1 = Outcome.value r
          ∧ unwrap r = some v := by
  unfold PatientLevelPrediction_aucWithCi
  rw [rcppExport_returns rt o aucWithCi rt.wrapDoubleVector a b m s t v hs ht hr]
  refine ⟨rfl, ?_, ?_⟩
  · exact callsOf_run_with_call o m.trace _ s t rfl
  · intro unwrap hun
    exact ⟨rt.wrapDoubleVector v, rfl, hun v⟩

/-- Evaluation of C2 on the test runtime: the three doubles the test routine returns
come back as the real vector with the same three elements in the same order. -/
theorem aucWithCi_returns_wrapped_result_witness :
    (Sample.runtime.asDoubleVector
        (Sample.Value.real [Sample.dbl 7, Sample.dbl 9, Sample.dbl 8])
        = Except.ok [Sample.dbl 7, Sample.dbl 9, Sample.dbl 8]
      ∧ Sample.runtime.asIntVector
        (Sample.Value.integer [Sample.int 1, Sample.int 0, Sample.int 1])
        = Except.ok [Sample.int 1, Sample.int 0, Sample.int 1])
    ∧ (PatientLevelPrediction_aucWithCi Sample.runtime ArgOrder.scoresFirst Sample.aucWithCi
        (Sample.Value.real [Sample.dbl 7, Sample.dbl 9, Sample.dbl 8])
        (Sample.Value.integer [Sample.int 1, Sample.int 0, Sample.int 1])
        (Sample.start 5)).1
      = Outcome.value (Sample.Value.real [Sample.dbl 7, Sample.dbl 9, Sample.dbl 8]) :=
  ⟨⟨rfl, rfl⟩,
    (aucWithCi_returns_wrapped_result Sample.runtime ArgOrder.scoresFirst Sample.aucWithCi
      (Sample.Value.real [Sample.dbl 7, Sample.dbl 9, Sample.dbl 8])
      (Sample.Value.integer [Sample.int 1, Sample.int 0, Sample.int 1]) (Sample.start 5)
      [Sample.dbl 7, Sample.dbl 9, Sample.dbl 8]
      [Sample.int 1, Sample.int 0, Sample.int 1]
      [Sample.dbl 7, Sample.dbl 9, Sample.dbl 8] rfl rfl rfl).1⟩

/-- C3: each entry point delegates all error behaviour.  It ends in a condition exactly
when the conversion of an argument fails or the routine throws; and it ends in the
condition `c` exactly when `c` is the translation, by the exception forwarding of
`END_RCPP`, of the exception that was raised: by the conversion attempted first, by
the conversion attempted second after the first succeeded, or by the routine after
both succeeded.  No condition has another origin. -/
theorem wrappers_delegate_errors (rt : Runtime SEXP Exn Cond W) (o : ArgOrder)
    (auc : Routine Exn W Double) (aucWithCi : Routine Exn W (List Double))
    (a b : SEXP) (m : Machine W) :
    (((∃ c, (PatientLevelPrediction_auc rt o auc a b m).1 = Outcome.condition c) ↔
        ((∃ e, rt.asDoubleVector a = Except.error e)
          ∨ (∃ e, rt.asIntVector b = Except.error e)
          ∨ (∃ s t e, rt.asDoubleVector a = Except.ok s ∧ rt.asIntVector b = Except.ok t
              ∧ (auc s t (rt.getRNGstate m.world)).1 = Except.error e)))
      ∧ ∀ c, (PatientLevelPrediction_auc rt o auc a b m).1 = Outcome.condition c ↔
        ∃ e, c = rt.forwardException e ∧
          ((o = ArgOrder.scoresFirst ∧ rt.asDoubleVector a = Except.error e)
          ∨ (o = ArgOrder.scoresFirst ∧ (∃ s, rt.asDoubleVector a = Except.ok s)
              ∧ rt.asIntVector b = Except.error e)
          ∨ (o = ArgOrder.treatmentFirst ∧ rt.asIntVector b = Except.error e)
          ∨ (o = ArgOrder.treatmentFirst ∧ (∃ t, rt.asIntVector b = Except.ok t)
              ∧ rt.asDoubleVector a = Except.error e)
          ∨ (∃ s t, rt.asDoubleVector a = Except.ok s ∧ rt.asIntVector b = Except.ok t
              ∧ (auc s t (rt.getRNGstate m.world)).1 = Except.error e)))
    ∧ (((∃ c, (PatientLevelPrediction_aucWithCi rt o aucWithCi a b m).1
            = Outcome.condition c) ↔
        ((∃ e, rt.asDoubleVector a = Except.error e)
          ∨ (∃ e, rt.asIntVector b = Except.error e)
          ∨ (∃ s t e, rt.asDoubleVector a = Except.ok s ∧ rt.asIntVector b = Except.ok t
              ∧ (aucWithCi s t (rt.getRNGstate m.world)).1 = Except.error e)))
      ∧ ∀ c, (PatientLevelPrediction_aucWithCi rt o aucWithCi a b m).1
            = Outcome.condition c ↔
        ∃ e, c = rt.forwardException e ∧
          ((o = ArgOrder.scoresFirst ∧ rt.asDoubleVector a = Except.error e)
          ∨ (o = ArgOrder.scoresFirst ∧ (∃ s, rt.asDoubleVector a = Except.ok s)
              ∧ rt.asIntVector b = Except.error e)
          ∨ (o = ArgOrder.treatmentFirst ∧ rt.asIntVector b = Except.error e)
          ∨ (o = ArgOrder.treatmentFirst ∧ (∃ t, rt.asIntVector b = Except.ok t)
              ∧ rt.asDoubleVector a = Except.error e)
          ∨ (∃ s t, rt.asDoubleVector a = Except.ok s ∧ rt.asIntVector b = Except.ok t
              ∧ (aucWithCi s t (rt.getRNGstate m.world)).1 = Except.error e))) :=
  ⟨⟨rcppExport_fails_iff rt o auc rt.wrapDouble a b m,
      fun c => rcppExport_condition_iff rt o auc rt.wrapDouble a b m c⟩,
    ⟨rcppExport_fails_iff rt o aucWithCi rt.wrapDoubleVector a b m,
      fun c => rcppExport_condition_iff rt o aucWithCi rt.wrapDoubleVector a b m c⟩⟩

/-- Evaluation of C3 on the test runtime: a closure passed as scores makes
`PatientLevelPrediction_auc` end in the conversion error, and vectors of different
lengths make `PatientLevelPrediction_aucWithCi` end in the error of the routine. -/
theorem wrappers_delegate_errors_witness :
    (PatientLevelPrediction_auc Sample.runtime ArgOrder.scoresFirst Sample.auc
        Sample.Value.closure (Sample.Value.integer [Sample.int 1]) (Sample.start 0)).1
      = Outcome.condition (Sample.Condition.simpleError Sample.Error.notCompatible)
    ∧ (PatientLevelPrediction_aucWithCi Sample.runtime ArgOrder.scoresFirst Sample.aucWithCi
        (Sample.Value.real [Sample.dbl 7, Sample.dbl 9]) (Sample.Value.integer [Sample.int 1])
        (Sample.start 0)).1
      = Outcome.condition (Sample.Condition.simpleError Sample.Error.lengthMismatch) :=
  ⟨((wrappers_delegate_errors Sample.runtime ArgOrder.scoresFirst Sample.auc
        Sample.aucWithCi Sample.Value.closure (Sample.Value.integer [Sample.int 1])
        (Sample.start 0)).1.2 _).mpr
      ⟨Sample.Error.notCompatible, rfl, Or.inl ⟨rfl, rfl⟩⟩,
    ((wrappers_delegate_errors Sample.runtime ArgOrder.scoresFirst Sample.auc
        Sample.aucWithCi (Sample.Value.real [Sample.dbl 7, Sample.dbl 9])
        (Sample.Value.integer [Sample.int 1]) (Sample.start 0)).2.2 _).mpr
      ⟨Sample.Error.lengthMismatch, rfl,
        Or.inr (Or.inr (Or.inr (Or.inr ⟨[Sample.dbl 7, Sample.dbl 9], [Sample.int 1],
          rfl, rfl, rfl⟩)))⟩⟩

/-- C6: the wrappers validate nothing and compute nothing.  Whatever vectors `s` and `t`
the two arguments convert to (no condition on their lengths or on the labels), each
entry point invokes its routine exactly once, on exactly `s` and `t`, ends the way the
routine does (its value wrapped, or its exception forwarded) and leaves the host state
the routine left, closed by the scope exit. -/
theorem wrappers_forward_any_input (rt : Runtime SEXP Exn Cond W) (o : ArgOrder)
    (auc : Routine Exn W Double) (aucWithCi : Routine Exn W (List Double))
    (a b : SEXP) (m : Machine W) (s : List Double) (t : List CInt)
    (hs : rt.asDoubleVector a = Except.ok s) (ht : rt.asIntVector b = Except.ok t) :
    ((∃ evs, (PatientLevelPrediction_auc rt o auc a b m).2.trace = m.trace ++ evs
          ∧ callsOf evs = [Event.call s t])
      ∧ (∀ d, (auc s t (rt.getRNGstate m.world)).1 = Except.ok d →
          (PatientLevelPrediction_auc rt o auc a b m).1 = Outcome.value (rt.wrapDouble d))
      ∧ (∀ e, (auc s t (rt.getRNGstate m.world)).1 = Except.error e →
          (PatientLevelPrediction_auc rt o auc a b m).1
            = Outcome.condition (rt.forwardException e))
      ∧ (PatientLevelPrediction_auc rt o auc a b m).2.world
          = rt.putRNGstate (auc s t (rt.getRNGstate m.world)).2)
    ∧ ((∃ evs, (PatientLevelPrediction_aucWithCi rt o aucWithCi a b m).2.trace
            = m.trace ++ evs
          ∧ callsOf evs = [Event.call s t])
      ∧ (∀ v, (aucWithCi s t (rt.getRNGstate m.world)).1 = Except.ok v →
          (PatientLevelPrediction_aucWithCi rt o aucWithCi a b m).1
            = Outcome.value (rt.wrapDoubleVector v))
      ∧ (∀ e, (aucWithCi s t (rt.getRNGstate m.world)).1 = Except.error e →
          (PatientLevelPrediction_aucWithCi rt o aucWithCi a b m).1
            = Outcome.condition (rt.forwardException e))
      ∧ (PatientLevelPrediction_aucWithCi rt o aucWithCi a b m).2.world
          = rt.putRNGstate (aucWithCi s t (rt.getRNGstate m.world)).2) :=
  ⟨rcppExport_forwards rt o auc rt.wrapDouble a b m s t hs ht,
    rcppExport_forwards rt o aucWithCi rt.wrapDoubleVector a b m s t hs ht⟩

/-- Evaluation of C6 on the test runtime, on two empty vectors, on vectors of lengths
two and one (the test routine rejects them, the wrapper does not), and on the labels
5 and 2. -/
theorem wrappers_forward_any_input_witness :
    (Sample.runtime.asDoubleVector (Sample.Value.real []) = Except.ok []
      ∧ Sample.runtime.asIntVector (Sample.Value.integer []) = Except.ok [])
    ∧ (PatientLevelPrediction_auc Sample.runtime ArgOrder.scoresFirst Sample.auc
        (Sample.Value.real []) (Sample.Value.integer []) (Sample.start 0))
      = (Outcome.value (Sample.Value.real [Sample.dbl 0]),
          Machine.mk 1 [Event.enterScope, Event.convertScores, Event.convertTreatment,
            Event.call [] [], Event.wrapResult, Event.exitScope])
    ∧ (PatientLevelPrediction_aucWithCi Sample.runtime ArgOrder.scoresFirst Sample.aucWithCi
        (Sample.Value.real [Sample.dbl 7, Sample.dbl 9]) (Sample.Value.integer [Sample.int 1])
        (Sample.start 0))
      = (Outcome.condition (Sample.Condition.simpleError Sample.Error.lengthMismatch),
          Machine.mk 0 [Event.enterScope, Event.convertScores, Event.convertTreatment,
            Event.call [Sample.dbl 7, Sample.dbl 9] [Sample.int 1], Event.exitScope,
            Event.forwardException])
    ∧ (PatientLevelPrediction_aucWithCi Sample.runtime ArgOrder.treatmentFirst
        Sample.aucWithCi (Sample.Value.real [Sample.dbl 7, Sample.dbl 9])
        (Sample.Value.integer [Sample.int 5, Sample.int 2]) (Sample.start 0)).1
      = Outcome.value (Sample.Value.real [Sample.dbl 7, Sample.dbl 9])
    ∧ (PatientLevelPrediction_auc Sample.runtime ArgOrder.scoresFirst Sample.auc
        (Sample.Value.real []) (Sample.Value.integer []) (Sample.start 0)).1
      = Outcome.value (Sample.Value.real [Sample.dbl 0]) :=
  ⟨⟨rfl, rfl⟩, rfl, rfl,
    (wrappers_forward_any_input Sample.runtime ArgOrder.treatmentFirst Sample.auc
      Sample.aucWithCi (Sample.Value.real [Sample.dbl 7, Sample.dbl 9])
      (Sample.Value.integer [Sample.int 5, Sample.int 2]) (Sample.start 0)
      [Sample.dbl 7, Sample.dbl 9] [Sample.int 5, Sample.int 2] rfl rfl).2.2.1 _ rfl,
    (wrappers_forward_any_input Sample.runtime ArgOrder.scoresFirst Sample.auc
      Sample.aucWithCi (Sample.Value.real []) (Sample.Value.integer []) (Sample.start 0)
      [] [] rfl rfl).1.2.1 _ rfl⟩

/-- C7: if the conversion of the scores argument or of the treatment argument fails,
either entry point ends in the translation of a conversion error and in nothing else:
the routine is not invoked, nothing is wrapped, and the host state has only gone
through the scope entry and exit. -/
theorem failed_conversion_skips_routine (rt : Runtime SEXP Exn Cond W) (o : ArgOrder)
    (auc : Routine Exn W Double) (aucWithCi : Routine Exn W (List Double))
    (a b : SEXP) (m : Machine W)
    (h : (∃ e, rt.asDoubleVector a = Except.error e)
      ∨ (∃ e, rt.asIntVector b = Except.error e)) :
    ∀ run ∈ [PatientLevelPrediction_auc rt o auc a b m,
        PatientLevelPrediction_aucWithCi rt o aucWithCi a b m],
      ∃ e, (rt.asDoubleVector a = Except.error e ∨ rt.asIntVector b = Except.error e)
        ∧ run.1 = Outcome.condition (rt.forwardException e)
        ∧ run.2.world = rt.putRNGstate (rt.getRNGstate m.world)
        ∧ ∃ evs, run.2.trace = m.trace ++ evs
            ∧ callsOf evs = [] ∧ Event.wrapResult ∉ evs := by
  intro run hrun
  simp only [List.mem_cons, List.mem_singleton, List.not_mem_nil, or_false] at hrun
  rcases hrun with rfl | rfl
  · exact rcppExport_conversion_failure rt o auc rt.wrapDouble a b m h
  · exact rcppExport_conversion_failure rt o aucWithCi rt.wrapDoubleVector a b m h

/-- Evaluation of C7 on the test runtime: an integer vector passed as scores and a
real vector passed as treatment; neither converts, and the run ends in the error of
the conversion attempted first with the counter untouched. -/
theorem failed_conversion_skips_routine_witness :
    ((∃ e, Sample.runtime.asDoubleVector (Sample.Value.integer [Sample.int 1])
          = Except.error e)
      ∨ (∃ e, Sample.runtime.asIntVector (Sample.Value.real [Sample.dbl 7])
          = Except.error e))
    ∧ (PatientLevelPrediction_auc Sample.runtime ArgOrder.scoresFirst Sample.auc
        (Sample.Value.integer [Sample.int 1]) (Sample.Value.real [Sample.dbl 7])
        (Sample.start 4))
      = (Outcome.condition (Sample.Condition.simpleError Sample.Error.notCompatible),
          Machine.mk 4 [Event.enterScope, Event.convertScores, Event.exitScope,
            Event.forwardException])
    ∧ ∃ e, (Sample.runtime.asDoubleVector (Sample.Value.integer [Sample.int 1])
            = Except.error e
          ∨ Sample.runtime.asIntVector (Sample.Value.real [Sample.dbl 7]) = Except.error e)
        ∧ (PatientLevelPrediction_auc Sample.runtime ArgOrder.scoresFirst Sample.auc
            (Sample.Value.integer [Sample.int 1]) (Sample.Value.real [Sample.dbl 7])
            (Sample.start 4)).1
          = Outcome.condition (Sample.runtime.forwardException e)
        ∧ (PatientLevelPrediction_auc Sample.runtime ArgOrder.scoresFirst Sample.auc
            (Sample.Value.integer [Sample.int 1]) (Sample.Value.real [Sample.dbl 7])
            (Sample.start 4)).2.world
          = Sample.runtime.putRNGstate (Sample.runtime.getRNGstate (Sample.start 4).world)
        ∧ ∃ evs, (PatientLevelPrediction_auc Sample.runtime ArgOrder.scoresFirst Sample.auc
            (Sample.Value.integer [Sample.int 1]) (Sample.Value.real [Sample.dbl 7])
            (Sample.start 4)).2.trace = (Sample.start 4).trace ++ evs
          ∧ callsOf evs = [] ∧ Event.wrapResult ∉ evs :=
  ⟨Or.inl ⟨Sample.Error.notCompatible, rfl⟩, rfl,
    failed_conversion_skips_routine Sample.runtime ArgOrder.scoresFirst Sample.auc
      Sample.aucWithCi (Sample.Value.integer [Sample.int 1])
      (Sample.Value.real [Sample.dbl 7]) (Sample.start 4)
      (Or.inl ⟨Sample.Error.notCompatible, rfl⟩) _ (List.mem_cons_self _ _)⟩

end Claims

end PatientLevelPrediction
